import Mathlib

/-!
Shallow embedding of `src/route/routemapobject.cpp` (Little Navmap route-leg
resolution) and proofs about its specification.

External collaborators (atools geometry, the navigation database query layer,
Qt string/regex primitives) are modelled either as explicit parameters (the
`Geo`, `MapQuery`, `Maptypes` records of functions) or as small executable
definitions whose doc comments say what they model.  Machine floats are
modelled as rationals.
-/

namespace LNM

/-- Geographic position (`atools::geo::Pos`): latitude/longitude modelled as
rationals plus a validity flag (the original encodes invalidity with sentinel
float values). -/
structure Pos where
  lat : ℚ
  lon : ℚ
  posValid : Bool
deriving DecidableEq

/-- `Pos::isValid()`. -/
def Pos.isValid (p : Pos) : Bool := p.posValid

/-- `atools::geo::EMPTY_POS`. -/
def EMPTY_POS : Pos := ⟨0, 0, false⟩

/-- A line between two positions (`atools::geo::Line`), used by approach legs. -/
structure Line where
  pos1 : Pos
  pos2 : Pos
deriving DecidableEq

/-- Modelled from the spec: a procedure leg's "defining line is a single point
(zero-length)" — `atools::geo::Line::isPoint()` (atools is an external
library, not under `src/`): both endpoints coincide. -/
def Line.isPoint (l : Line) : Bool := l.pos1 = l.pos2

/-- External geometry functions of `atools::geo` (great-circle and rhumb-line
distance/bearing; transcendental, hence kept abstract).  The embedding is
parametric in this record. -/
structure Geo where
  distanceSimpleTo : Pos → Pos → ℚ
  distanceMeterTo : Pos → Pos → ℚ
  distanceMeterToRhumb : Pos → Pos → ℚ
  angleDegTo : Pos → Pos → ℚ
  angleDegToRhumb : Pos → Pos → ℚ

/-- `atools::geo::meterToNm`: metres to nautical miles. -/
def meterToNm (m : ℚ) : ℚ := m / 1852

/-- Modelled from the spec: `atools::geo::normalizeCourse` (atools is external
to `src/`), "normalized into [0, 360) degrees": reduce modulo 360 into
`[0, 360)`. -/
def normalizeCourse (c : ℚ) : ℚ := c - 360 * ⌊c / 360⌋

/-- Modelled from the spec: `maptypes::INVALID_DISTANCE_VALUE`
(`src/common/maptypes.h` is part of the repository but not under `src/`):
the largest finite single-precision float, used as the "no distance yet"
sentinel in the nearest-candidate loop: `(2 - 2 ^ (-23)) * 2 ^ 127`. -/
def INVALID_DISTANCE_VALUE : ℚ := 340282346638528859811704183484516925440

/-- `MAX_WAYPOINT_DISTANCE_METER` from `routemapobject.cpp`. -/
def MAX_WAYPOINT_DISTANCE_METER : ℚ := 10000

/-- `maptypes::MapObjectTypes` restricted to the tags this translation unit
stores in `RouteMapObject::type`; the various approach/missed/transition flag
combinations are collapsed into the single tag `PROCEDURE` (modelled from the
spec: "ProcedureLeg(subtype)" — the subtype is irrelevant here). -/
inductive MapObjectType where
  | NONE
  | AIRPORT
  | VOR
  | NDB
  | WAYPOINT
  | ILS
  | RUNWAYEND
  | USER
  | INVALID
  | PROCEDURE
deriving DecidableEq

/-- `maptypes::MapAirport` (fields used here; `isValid()` modelled as a stored
flag since `maptypes.h` is not under `src/`). -/
structure MapAirport where
  id : Int
  ident : String
  name : String
  position : Pos
  magvar : ℚ
  isValid : Bool
deriving DecidableEq

/-- `maptypes::MapVor` (fields used here). -/
structure MapVor where
  id : Int
  ident : String
  region : String
  name : String
  position : Pos
  magvar : ℚ
  range : Int
  frequency : Int
  isValid : Bool
deriving DecidableEq

/-- `maptypes::MapNdb` (fields used here). -/
structure MapNdb where
  id : Int
  ident : String
  region : String
  name : String
  position : Pos
  magvar : ℚ
  range : Int
  frequency : Int
  isValid : Bool
deriving DecidableEq

/-- `maptypes::MapWaypoint` (fields used here). -/
structure MapWaypoint where
  id : Int
  ident : String
  region : String
  position : Pos
  magvar : ℚ
  isValid : Bool
deriving DecidableEq

/-- `maptypes::MapIls` (fields used here). -/
structure MapIls where
  id : Int
  ident : String
  name : String
  position : Pos
  range : Int
  frequency : Int
  isValid : Bool
deriving DecidableEq

/-- `maptypes::MapRunwayEnd` (fields used here). -/
structure MapRunwayEnd where
  id : Int
  name : String
  position : Pos
  isValid : Bool
deriving DecidableEq

/-- `maptypes::MapParking` (fields used here). -/
structure MapParking where
  id : Int
  name : String
  number : Int
  position : Pos
  isValid : Bool
deriving DecidableEq

/-- `maptypes::MapStart` (fields used here). -/
structure MapStart where
  id : Int
  runwayName : String
  helipadNumber : Int
  position : Pos
  isValid : Bool
deriving DecidableEq

/-- Modelled from the spec: default-constructed map objects carry no payload
(`isValid()` false, invalid id/position) — the constructors live in
`maptypes.h`, not under `src/`. -/
def MapAirport.empty : MapAirport := ⟨-1, "", "", EMPTY_POS, 0, false⟩

def MapVor.empty : MapVor := ⟨-1, "", "", "", EMPTY_POS, 0, 0, 0, false⟩

def MapNdb.empty : MapNdb := ⟨-1, "", "", "", EMPTY_POS, 0, 0, 0, false⟩

def MapWaypoint.empty : MapWaypoint := ⟨-1, "", "", EMPTY_POS, 0, false⟩

def MapIls.empty : MapIls := ⟨-1, "", "", EMPTY_POS, 0, 0, false⟩

def MapRunwayEnd.empty : MapRunwayEnd := ⟨-1, "", EMPTY_POS, false⟩

def MapParking.empty : MapParking := ⟨-1, "", 0, EMPTY_POS, false⟩

def MapStart.empty : MapStart := ⟨-1, "", 0, EMPTY_POS, false⟩

/-- `maptypes::MapSearchResult` (candidate lists used here). -/
structure MapSearchResult where
  airports : List MapAirport
  waypoints : List MapWaypoint
  vors : List MapVor
  ndbs : List MapNdb
  ils : List MapIls
  runwayEnds : List MapRunwayEnd
deriving DecidableEq

def MapSearchResult.empty : MapSearchResult := ⟨[], [], [], [], [], []⟩

def MapSearchResult.hasWaypoints (r : MapSearchResult) : Bool := !r.waypoints.isEmpty

def MapSearchResult.hasVor (r : MapSearchResult) : Bool := !r.vors.isEmpty

def MapSearchResult.hasNdb (r : MapSearchResult) : Bool := !r.ndbs.isEmpty

def MapSearchResult.hasIls (r : MapSearchResult) : Bool := !r.ils.isEmpty

def MapSearchResult.hasRunwayEnd (r : MapSearchResult) : Bool := !r.runwayEnds.isEmpty

/-- `maptypes::MapApproachLeg` (fields used in this translation unit). -/
structure MapApproachLeg where
  magvar : ℚ
  mapType : MapObjectType
  navaids : MapSearchResult
  line : Line
  geometry : List Pos
  calculatedTrueCourse : ℚ
  calculatedDistance : ℚ
  displayText : List String
deriving DecidableEq

def MapApproachLeg.empty : MapApproachLeg :=
  ⟨0, .NONE, .empty, ⟨EMPTY_POS, EMPTY_POS⟩, [], 0, 0, []⟩

/-- `atools::fs::pln::entry::WaypointType`. -/
inductive WaypointType where
  | UNKNOWN
  | AIRPORT
  | INTERSECTION
  | VOR
  | NDB
  | USER
deriving DecidableEq

/-- `atools::fs::pln::FlightplanEntry` (fields this unit reads or writes). -/
structure FlightplanEntry where
  waypointType : WaypointType
  icaoIdent : String
  icaoRegion : String
  position : Pos
  airway : String
  waypointId : String
deriving DecidableEq

/-- `EMPTY_FLIGHTPLAN_ENTRY` (`routemapobject.cpp:36`). -/
def EMPTY_FLIGHTPLAN_ENTRY : FlightplanEntry :=
  ⟨.UNKNOWN, "", "", EMPTY_POS, "", ""⟩

/-- `atools::fs::pln::Flightplan` (fields this unit reads or writes). -/
structure Flightplan where
  entries : List FlightplanEntry
  departureParkingName : String
  departurePosition : Pos
deriving DecidableEq

/-- The navigation-database query collaborator (`MapQuery`), modelled as a
record of pure oracle functions; `getMapObjectByIdent` takes the object type,
identifier and region (the airport call site passes the default null region,
modelled as `""`). -/
structure MapQuery where
  getMapObjectByIdent : MapObjectType → String → String → MapSearchResult
  getParkingByNameAndNumber : Int → String → Int → List MapParking
  getStartByNameAndPos : Int → String → Pos → MapStart

/-- External helpers of `maptypes` used by the parking special case
(`parkingDatabaseName`, `parkingNameForFlightplan` live in `maptypes.h/.cpp`,
not under `src/`), kept abstract. -/
structure Maptypes where
  parkingDatabaseName : String → String
  parkingNameForFlightplan : MapParking → String

/-- `RouteMapObject`: the route leg under construction.  The flight-plan
pointer of the original is passed explicitly to the functions that read it. -/
structure RouteMapObject where
  index : Nat
  type : MapObjectType
  airport : MapAirport
  vor : MapVor
  ndb : MapNdb
  waypoint : MapWaypoint
  ils : MapIls
  runwayEnd : MapRunwayEnd
  approachLeg : MapApproachLeg
  parking : MapParking
  start : MapStart
  magvar : ℚ
  valid : Bool
  courseTo : ℚ
  courseRhumbTo : ℚ
  distanceTo : ℚ
  distanceToRhumb : ℚ
  geometry : List Pos
deriving DecidableEq

/-- Modelled from the spec: a default-constructed leg (the member
initializers live in `routemapobject.h`, not under `src/`); §7 requires a leg
whose resolution fails to end up invalid, so a fresh leg starts with
`valid = false`, no payload populated and zeroed derived fields. -/
def RouteMapObject.empty : RouteMapObject :=
  ⟨0, .NONE, .empty, .empty, .empty, .empty, .empty, .empty, .empty, .empty,
   .empty, 0, false, 0, 0, 0, 0, []⟩

/-- `RouteMapObject::isAnyApproach()` (declared in `routemapobject.h`, not
under `src/`; modelled from the spec: the leg is a procedure leg). -/
def RouteMapObject.isAnyApproach (r : RouteMapObject) : Bool :=
  r.type = .PROCEDURE

/-- `RouteMapObject::isRoute()` (declared in `routemapobject.h`, not under
`src/`; modelled from the spec: a "real preceding route leg" is one that is
not a procedure leg). -/
def RouteMapObject.isRoute (r : RouteMapObject) : Bool :=
  !r.isAnyApproach

/-- Loop body of `findMapObject` (`routemapobject.cpp:58-67`): fold over the
candidates keeping the current nearest object and its distance; a strictly
smaller distance replaces the current nearest. -/
def findMapObjectLoop {α : Type} (d : α → ℚ) : List α → α → ℚ → α × ℚ
  | [], nearest, dist => (nearest, dist)
  | obj :: rest, nearest, dist =>
    if d obj < dist then findMapObjectLoop d rest obj (d obj)
    else findMapObjectLoop d rest nearest dist

/-- `findMapObject` (`routemapobject.cpp:50-74`): nearest candidate to `pos`
by the simple great-circle distance `dS`; the template's `TYPE::position`
member is the parameter `position`, the default-constructed `TYPE()` is
`dflt`.  Returns the object and the `found` flag. -/
def findMapObject {α : Type} (position : α → Pos) (dflt : α)
    (dS : Pos → Pos → ℚ) (waypoints : List α) (pos : Pos) : α × Bool :=
  match waypoints with
  | [] => (dflt, false)
  | first :: rest =>
    if (first :: rest).length > 1 then
      ((findMapObjectLoop (fun o => dS pos (position o))
          (first :: rest) first INVALID_DISTANCE_VALUE).1, true)
    else (first, true)

/-- `RouteMapObject::curEntry()` (`routemapobject.cpp:570-576`). -/
def curEntry (plan : Flightplan) (r : RouteMapObject) : FlightplanEntry :=
  if r.isRoute then plan.entries.getD r.index EMPTY_FLIGHTPLAN_ENTRY
  else EMPTY_FLIGHTPLAN_ENTRY

/-- `RouteMapObject::getPosition()` (`routemapobject.cpp:460-490`). -/
def getPosition (plan : Flightplan) (r : RouteMapObject) : Pos :=
  if r.isAnyApproach then r.approachLeg.line.pos2
  else if r.type = .INVALID then
    (if (curEntry plan r).position.isValid then (curEntry plan r).position
     else EMPTY_POS)
  else if r.airport.isValid then r.airport.position
  else if r.vor.isValid then r.vor.position
  else if r.ndb.isValid then r.ndb.position
  else if r.waypoint.isValid then r.waypoint.position
  else if r.ils.isValid then r.ils.position
  else if r.runwayEnd.isValid then r.runwayEnd.position
  else if (curEntry plan r).waypointType = .USER then (curEntry plan r).position
  else EMPTY_POS

/-- `RouteMapObject::getId()` (`routemapobject.cpp:394-411`). -/
def getId (r : RouteMapObject) : Int :=
  if r.type = .INVALID then -1
  else if r.waypoint.isValid then r.waypoint.id
  else if r.vor.isValid then r.vor.id
  else if r.ndb.isValid then r.ndb.id
  else if r.airport.isValid then r.airport.id
  else if r.ils.isValid then r.ils.id
  else -1

/-- `RouteMapObject::getIdent()` (`routemapobject.cpp:492-516`). -/
def getIdent (plan : Flightplan) (r : RouteMapObject) : String :=
  if r.airport.isValid then r.airport.ident
  else if r.vor.isValid then r.vor.ident
  else if r.ndb.isValid then r.ndb.ident
  else if r.waypoint.isValid then r.waypoint.ident
  else if r.ils.isValid then r.ils.ident
  else if r.runwayEnd.isValid then "RW" ++ r.runwayEnd.name
  else if !r.approachLeg.displayText.isEmpty then
    r.approachLeg.displayText.getD 0 ""
  else if r.type = .INVALID then (curEntry plan r).icaoIdent
  else if (curEntry plan r).waypointType = .USER then (curEntry plan r).waypointId
  else if (curEntry plan r).waypointType = .UNKNOWN then "Unknown Waypoint Type"
  else ""

/-- `RouteMapObject::getRegion()` (`routemapobject.cpp:518-528`). -/
def getRegion (r : RouteMapObject) : String :=
  if r.vor.isValid then r.vor.region
  else if r.ndb.isValid then r.ndb.region
  else if r.waypoint.isValid then r.waypoint.region
  else ""

/-- `RouteMapObject::getRange()` (`routemapobject.cpp:413-426`). -/
def getRange (r : RouteMapObject) : Int :=
  if r.type = .INVALID then -1
  else if r.vor.isValid then r.vor.range
  else if r.ndb.isValid then r.ndb.range
  else if r.ils.isValid then r.ils.range
  else -1

/-- `RouteMapObject::getFrequency()` (`routemapobject.cpp:555-568`). -/
def getFrequency (r : RouteMapObject) : Int :=
  if r.type = .INVALID then 0
  else if r.vor.isValid then r.vor.frequency
  else if r.ndb.isValid then r.ndb.frequency
  else if r.ils.isValid then r.ils.frequency
  else 0

/-- `RouteMapObject::getName()` (`routemapobject.cpp:530-545`). -/
def getName (r : RouteMapObject) : String :=
  if r.type = .INVALID then ""
  else if r.airport.isValid then r.airport.name
  else if r.vor.isValid then r.vor.name
  else if r.ndb.isValid then r.ndb.name
  else if r.ils.isValid then r.ils.name
  else ""

/-- `RouteMapObject::updateMagvar()` (`routemapobject.cpp:294-308`). -/
def updateMagvar (r : RouteMapObject) : RouteMapObject :=
  { r with magvar :=
      if r.isAnyApproach then r.approachLeg.magvar
      else if r.airport.isValid then r.airport.magvar
      else if r.vor.isValid then r.vor.magvar
      else if r.ndb.isValid then r.ndb.magvar
      else if r.waypoint.isValid then r.waypoint.magvar
      else 0 }

/-- `RouteMapObject::updateDistanceAndCourse()` (`routemapobject.cpp:345-387`). -/
def updateDistanceAndCourse (geo : Geo) (plan : Flightplan) (entryIndex : Nat)
    (pred : Option RouteMapObject) (r0 : RouteMapObject) : RouteMapObject :=
  let r := { r0 with index := entryIndex }
  if r.isAnyApproach then
    let r1 :=
      match pred with
      | some p =>
        if p.isRoute && r.approachLeg.line.isPoint then
          let prevPos := getPosition plan p
          { r with
            courseTo :=
              normalizeCourse (geo.angleDegTo prevPos r.approachLeg.line.pos1),
            courseRhumbTo :=
              normalizeCourse (geo.angleDegToRhumb prevPos r.approachLeg.line.pos1),
            distanceTo :=
              meterToNm (geo.distanceMeterTo r.approachLeg.line.pos1 prevPos),
            distanceToRhumb :=
              meterToNm (geo.distanceMeterToRhumb r.approachLeg.line.pos1 prevPos) }
        else
          { r with
            courseTo := r.approachLeg.calculatedTrueCourse,
            courseRhumbTo := r.approachLeg.calculatedTrueCourse,
            distanceTo := r.approachLeg.calculatedDistance,
            distanceToRhumb := r.approachLeg.calculatedDistance }
      | none =>
        { r with
          courseTo := r.approachLeg.calculatedTrueCourse,
          courseRhumbTo := r.approachLeg.calculatedTrueCourse,
          distanceTo := r.approachLeg.calculatedDistance,
          distanceToRhumb := r.approachLeg.calculatedDistance }
    { r1 with geometry := r1.approachLeg.geometry }
  else
    match pred with
    | some p =>
      let prevPos := getPosition plan p
      { r with
        distanceTo := meterToNm (geo.distanceMeterTo (getPosition plan r) prevPos),
        distanceToRhumb :=
          meterToNm (geo.distanceMeterToRhumb (getPosition plan r) prevPos),
        courseTo := normalizeCourse (geo.angleDegTo prevPos (getPosition plan r)),
        courseRhumbTo :=
          normalizeCourse (geo.angleDegToRhumb prevPos (getPosition plan r)),
        geometry := [prevPos, getPosition plan r] }
    | none =>
      { r with
        distanceTo := 0,
        distanceToRhumb := 0,
        courseTo := 0,
        courseRhumbTo := 0,
        geometry := [getPosition plan r] }

/-- Backward scan of `updateInvalidMagvar` (`routemapobject.cpp:317-324`):
first magnetic variation that is not (almost) zero at index `i, i-1, ..., 0`
(`atools::almostNotEqual(x, 0.f)` is modelled as exact `x ≠ 0` over ℚ), else 0. -/
def scanDown (l : List RouteMapObject) : Nat → ℚ
  | 0 =>
    if (l.getD 0 RouteMapObject.empty).magvar ≠ 0 then
      (l.getD 0 RouteMapObject.empty).magvar
    else 0
  | i + 1 =>
    if (l.getD (i + 1) RouteMapObject.empty).magvar ≠ 0 then
      (l.getD (i + 1) RouteMapObject.empty).magvar
    else scanDown l i

/-- Forward scan of `updateInvalidMagvar` (`routemapobject.cpp:326-333`):
first magnetic variation that is not (almost) zero at index
`i, i+1, ..., length-1`, else 0. -/
def scanUp (l : List RouteMapObject) (i : Nat) : ℚ :=
  if i < l.length then
    if (l.getD i RouteMapObject.empty).magvar ≠ 0 then
      (l.getD i RouteMapObject.empty).magvar
    else scanUp l (i + 1)
  else 0
termination_by l.length - i
decreasing_by omega

/-- `RouteMapObject::updateInvalidMagvar()` (`routemapobject.cpp:310-343`);
the route list is passed as the list of its legs. -/
def updateInvalidMagvar (entryIndex : Nat) (routeList : List RouteMapObject)
    (r : RouteMapObject) : RouteMapObject :=
  if r.type = .USER ∨ r.type = .INVALID then
    let startIdx := min entryIndex (routeList.length - 1)
    let magvarnext := scanDown routeList startIdx
    let magvarprev := scanUp routeList startIdx
    let m :=
      if magvarnext ≠ 0 ∧ magvarprev ≠ 0 then (magvarnext + magvarprev) / 2
      else if magvarnext ≠ 0 then magvarnext
      else if magvarprev ≠ 0 then magvarprev
      else 0
    { r with magvar := m }
  else r

/-- Whitespace for `QString::trimmed()`. -/
def isWhitespaceChar (c : Char) : Bool :=
  c = ' ' || c = '\t' || c = '\n' || c = '\r'

/-- `QString::trimmed()`: strip leading and trailing whitespace. -/
def qtTrim (s : String) : String :=
  ⟨((s.toList.dropWhile isWhitespaceChar).reverse.dropWhile
      isWhitespaceChar).reverse⟩

/-- `QString::toUpper()` (ASCII suffices for parking names). -/
def qtToUpper (s : String) : String := ⟨s.toList.map Char.toUpper⟩

/-- `QString::replace(" ", "_")`: every space becomes an underscore. -/
def replaceSpaceWithUnderscore (s : String) : String :=
  ⟨s.toList.map fun c => if c = ' ' then '_' else c⟩

/-- `QString::toInt()` for the digit-only capture group 2 (empty string
yields `0`, as in Qt). -/
def qtToInt (s : String) : Int :=
  ((s.toList.foldl (fun a c => a * 10 + (c.toNat - 48)) 0 : Nat) : Int)

/-- The character class `[A-Za-z_ ]` of `PARKING_TO_NAME_AND_NUM`
(`routemapobject.cpp:30`). -/
def isParkingNameChar (c : Char) : Bool := c.isAlpha || c = '_' || c = ' '

/-- Scanner realising the leftmost match of the pattern
`([A-Za-z_ ]*)([0-9]+)`: walk the text keeping (reversed) the run of
class-1 characters immediately preceding the current point; at the first
digit reachable from a match start, group 1 is that run and group 2 the
maximal digit run. -/
def parkingRegexScan (run : List Char) : List Char → Option (List Char × List Char)
  | [] => none
  | c :: rest =>
    if c.isDigit then some (run.reverse, c :: rest.takeWhile Char.isDigit)
    else if isParkingNameChar c then parkingRegexScan (c :: run) rest
    else parkingRegexScan [] rest

/-- `PARKING_TO_NAME_AND_NUM.match(name)` (`routemapobject.cpp:30,144`):
PCRE leftmost match with greedy groups of `([A-Za-z_ ]*)([0-9]+)`, returning
`(captured(1), captured(2))`; with no match, Qt's `captured()` returns null
strings, modelled as `("", "")`. -/
def PARKING_TO_NAME_AND_NUM_match (s : String) : String × String :=
  match parkingRegexScan [] s.toList with
  | some (g1, g2) => (⟨g1⟩, ⟨g2⟩)
  | none => ("", "")

/-- `RouteMapObject::createFromAirport()` (`routemapobject.cpp:76-86`). -/
def createFromAirport (geo : Geo) (plan : Flightplan) (entryIndex : Nat)
    (newAirport : MapAirport) (pred : Option RouteMapObject)
    (r0 : RouteMapObject) : RouteMapObject :=
  let r := { r0 with index := entryIndex, type := .AIRPORT, airport := newAirport }
  let r := updateMagvar r
  let r := updateDistanceAndCourse geo plan entryIndex pred r
  { r with valid := true }

/-- `RouteMapObject::createFromApproachLeg()` (`routemapobject.cpp:88-111`);
`legs` is the procedure's leg list, indexed by `entryIndex` as in
`legs.at(entryIndex)`. -/
def createFromApproachLeg (geo : Geo) (plan : Flightplan) (entryIndex : Nat)
    (legs : List MapApproachLeg) (pred : Option RouteMapObject)
    (r0 : RouteMapObject) : RouteMapObject :=
  let leg := legs.getD entryIndex .empty
  let r := { r0 with index := entryIndex, approachLeg := leg,
                     magvar := leg.magvar, type := leg.mapType }
  let r := match leg.navaids.waypoints with
    | w :: _ => { r with waypoint := w }
    | [] => r
  let r := match leg.navaids.vors with
    | v :: _ => { r with vor := v }
    | [] => r
  let r := match leg.navaids.ndbs with
    | n :: _ => { r with ndb := n }
    | [] => r
  let r := match leg.navaids.ils with
    | i :: _ => { r with ils := i }
    | [] => r
  let r := match leg.navaids.runwayEnds with
    | e :: _ => { r with runwayEnd := e }
    | [] => r
  let r := updateMagvar r
  let r := updateDistanceAndCourse geo plan entryIndex pred r
  { r with valid := true }

/-- The local `flightplanEntry` of `createFromDatabaseByEntry`
(`routemapobject.cpp:117`): the flight-plan entry at the given index. -/
def entryAt (plan : Flightplan) (i : Nat) : FlightplanEntry :=
  plan.entries.getD i EMPTY_FLIGHTPLAN_ENTRY

/-- The local `region` of `createFromDatabaseByEntry`
(`routemapobject.cpp:119-122`): the entry region with the `"KK"` sentinel
cleared. -/
def regionAt (plan : Flightplan) (i : Nat) : String :=
  if (entryAt plan i).icaoRegion = "KK" then "" else (entryAt plan i).icaoRegion

/-- The `findMapObject` call of the INTERSECTION branch
(`routemapobject.cpp:206-209`): nearest waypoint candidate plus found flag. -/
def wpCandidate (geo : Geo) (query : MapQuery) (plan : Flightplan)
    (i : Nat) : MapWaypoint × Bool :=
  findMapObject (fun w : MapWaypoint => w.position) .empty geo.distanceSimpleTo
    (query.getMapObjectByIdent .WAYPOINT (entryAt plan i).icaoIdent
      (regionAt plan i)).waypoints
    (entryAt plan i).position

/-- The `findMapObject` call of the VOR branch (`routemapobject.cpp:228-230`). -/
def vorCandidate (geo : Geo) (query : MapQuery) (plan : Flightplan)
    (i : Nat) : MapVor × Bool :=
  findMapObject (fun v : MapVor => v.position) .empty geo.distanceSimpleTo
    (query.getMapObjectByIdent .VOR (entryAt plan i).icaoIdent
      (regionAt plan i)).vors
    (entryAt plan i).position

/-- The `findMapObject` call of the NDB branch (`routemapobject.cpp:248-250`). -/
def ndbCandidate (geo : Geo) (query : MapQuery) (plan : Flightplan)
    (i : Nat) : MapNdb × Bool :=
  findMapObject (fun n : MapNdb => n.position) .empty geo.distanceSimpleTo
    (query.getMapObjectByIdent .NDB (entryAt plan i).icaoIdent
      (regionAt plan i)).ndbs
    (entryAt plan i).position

/-- The `switch` of `RouteMapObject::createFromDatabaseByEntry()`
(`routemapobject.cpp:115-273`): resolve the flight-plan entry at
`entryIndex` against the database oracle `query`, returning the updated leg
and the updated flight plan (the original mutates both through pointers). -/
def resolveStep (geo : Geo) (mt : Maptypes) (query : MapQuery)
    (entryIndex : Nat) (pred : Option RouteMapObject)
    (r0 : RouteMapObject) (plan0 : Flightplan) : RouteMapObject × Flightplan :=
  let r := { r0 with index := entryIndex }
  let entry := entryAt plan0 entryIndex
  match entry.waypointType with
    | .UNKNOWN => (r, plan0)
    | .AIRPORT =>
      let result := query.getMapObjectByIdent .AIRPORT entry.icaoIdent ""
      match result.airports with
      | [] => (r, plan0)
      | a :: _ =>
        let r := { r with type := .AIRPORT, airport := a, valid := true }
        let name := qtTrim plan0.departureParkingName
        if name ≠ "" ∧ pred = none then
          let m := PARKING_TO_NAME_AND_NUM_match name
          let parkingName := replaceSpaceWithUnderscore (qtToUpper (qtTrim m.1))
          if parkingName ≠ "" then
            let number := qtToInt m.2
            let parkings := query.getParkingByNameAndNumber a.id
              (mt.parkingDatabaseName parkingName) number
            match parkings with
            | [] => (r, { plan0 with departureParkingName := "" })
            | p :: _ =>
              ({ r with parking := p },
               { plan0 with departureParkingName := mt.parkingNameForFlightplan p })
          else
            let st := query.getStartByNameAndPos a.id name plan0.departurePosition
            let r := { r with start := st }
            if !st.isValid then
              (r, { plan0 with departureParkingName := "" })
            else if st.helipadNumber > 0 then
              (r, { plan0 with departureParkingName := toString st.helipadNumber })
            else
              (r, { plan0 with departureParkingName := st.runwayName })
        else
          ({ r with start := .empty, parking := .empty }, plan0)
    | .INTERSECTION =>
      let fm := wpCandidate geo query plan0 entryIndex
      if fm.2 then
        let obj := fm.1
        let r := { r with type := .WAYPOINT, waypoint := obj,
                          valid := decide (geo.distanceMeterTo obj.position
                            entry.position < MAX_WAYPOINT_DISTANCE_METER) }
        if r.valid then
          let newEntry := { entry with icaoRegion := obj.region,
                                       icaoIdent := obj.ident,
                                       position := obj.position }
          (r, { plan0 with entries := plan0.entries.set entryIndex newEntry })
        else (r, plan0)
      else (r, plan0)
    | .VOR =>
      let fm := vorCandidate geo query plan0 entryIndex
      if fm.2 then
        let obj := fm.1
        let r := { r with type := .VOR, vor := obj,
                          valid := decide (geo.distanceMeterTo obj.position
                            entry.position < MAX_WAYPOINT_DISTANCE_METER) }
        if r.valid then
          let newEntry := { entry with icaoRegion := obj.region,
                                       icaoIdent := obj.ident,
                                       position := obj.position }
          (r, { plan0 with entries := plan0.entries.set entryIndex newEntry })
        else (r, plan0)
      else (r, plan0)
    | .NDB =>
      let fm := ndbCandidate geo query plan0 entryIndex
      if fm.2 then
        let obj := fm.1
        let r := { r with type := .NDB, ndb := obj,
                          valid := decide (geo.distanceMeterTo obj.position
                            entry.position < MAX_WAYPOINT_DISTANCE_METER) }
        if r.valid then
          let newEntry := { entry with icaoRegion := obj.region,
                                       icaoIdent := obj.ident,
                                       position := obj.position }
          (r, { plan0 with entries := plan0.entries.set entryIndex newEntry })
        else (r, plan0)
      else (r, plan0)
    | .USER =>
      let newEntry := { entry with icaoIdent := "", icaoRegion := "" }
      ({ r with valid := true, type := .USER },
       { plan0 with entries := plan0.entries.set entryIndex newEntry })

/-- Epilogue of `RouteMapObject::createFromDatabaseByEntry()`
(`routemapobject.cpp:275-279`): an unsuccessful leg becomes `INVALID`, then
magnetic variation and distance/course are refreshed. -/
def finishLeg (geo : Geo) (plan : Flightplan) (entryIndex : Nat)
    (pred : Option RouteMapObject) (r0 : RouteMapObject) : RouteMapObject :=
  let r1 := if !r0.valid then { r0 with type := .INVALID } else r0
  let r1 := updateMagvar r1
  updateDistanceAndCourse geo plan entryIndex pred r1

/-- `RouteMapObject::createFromDatabaseByEntry()`
(`routemapobject.cpp:113-280`): the resolution switch followed by the
epilogue. -/
def createFromDatabaseByEntry (geo : Geo) (mt : Maptypes) (query : MapQuery)
    (entryIndex : Nat) (pred : Option RouteMapObject)
    (r0 : RouteMapObject) (plan0 : Flightplan) : RouteMapObject × Flightplan :=
  let step := resolveStep geo mt query entryIndex pred r0 plan0
  (finishLeg geo step.2 entryIndex pred step.1, step.2)

/-- Constant-zero geometry oracle for concrete witnesses. -/
def geoZero : Geo :=
  ⟨fun _ _ => 0, fun _ _ => 0, fun _ _ => 0, fun _ _ => 0, fun _ _ => 0⟩

/-- Identity-style `maptypes` helpers for concrete witnesses. -/
def mtId : Maptypes := ⟨fun s => s, fun p => p.name⟩

/-- A query oracle that finds nothing. -/
def queryEmpty : MapQuery :=
  ⟨fun _ _ _ => .empty, fun _ _ _ => [], fun _ _ _ => .empty⟩

/-- A one-entry flight plan holding the default (UNKNOWN) entry. -/
def planUnknown : Flightplan := ⟨[EMPTY_FLIGHTPLAN_ENTRY], "", EMPTY_POS⟩

/-- A procedure leg whose precomputed course is out of the [0,360) range and
whose defining line is not a point, for concrete instances. -/
def rProcedure : RouteMapObject :=
  { RouteMapObject.empty with
    type := .PROCEDURE,
    approachLeg :=
      { MapApproachLeg.empty with
        calculatedTrueCourse := 400,
        calculatedDistance := 7,
        line := ⟨⟨1, 1, true⟩, ⟨2, 2, true⟩⟩,
        geometry := [⟨1, 1, true⟩, ⟨2, 2, true⟩] } }

/-- Resolution rule of the magnetic-variation backfill (spec §4.3): mean if
both scans found a value, the single value if one did, zero otherwise. -/
def combineMagvar (x y : Option ℚ) : ℚ :=
  match x, y with
  | some a, some b => (a + b) / 2
  | some a, none => a
  | none, some b => b
  | none, none => 0

/-- Specification formula for the magnetic-variation backfill (spec §4.3 /
C5): scan backward from the clamped leg index toward 0 and forward toward
the end for the first non-zero magnetic variation, then combine. -/
def backfillSpec (entryIndex : Nat) (routeList : List RouteMapObject) : ℚ :=
  let s := min entryIndex (routeList.length - 1)
  let back := ((List.range (s + 1)).reverse.map
      fun i => (routeList.getD i RouteMapObject.empty).magvar).find?
      fun q => decide (q ≠ 0)
  let fwd := ((routeList.drop s).map fun x => x.magvar).find?
      fun q => decide (q ≠ 0)
  combineMagvar back fwd

/-- Route legs for the concrete backfill example `[A(var=5), B(var=0,user),
C(var=9)]`. -/
def legA : RouteMapObject :=
  { RouteMapObject.empty with type := .AIRPORT, magvar := 5 }

def legB : RouteMapObject :=
  { RouteMapObject.empty with type := .USER, magvar := 0 }

def legC : RouteMapObject :=
  { RouteMapObject.empty with type := .WAYPOINT, magvar := 9 }

def routeABC : List RouteMapObject := [legA, legB, legC]

/-- Geometry oracle reporting 20000 m for every pair (beyond the 10000 m
tolerance). -/
def geoFar : Geo :=
  ⟨fun _ _ => 20000, fun _ _ => 20000, fun _ _ => 20000, fun _ _ => 20000,
   fun _ _ => 20000⟩

/-- A concrete waypoint candidate. -/
def wpFar : MapWaypoint := ⟨10, "WPT", "ED", ⟨50, 8, true⟩, 2, true⟩

/-- A flight-plan entry asking for waypoint "WPT". -/
def entryWpt : FlightplanEntry := ⟨.INTERSECTION, "WPT", "ED", ⟨0, 0, true⟩, "", ""⟩

/-- One-entry flight plan around `entryWpt`. -/
def planWpt : Flightplan := ⟨[entryWpt], "", EMPTY_POS⟩

/-- Query oracle returning exactly the candidate `wpFar`. -/
def queryWpt : MapQuery :=
  ⟨fun _ _ _ => { MapSearchResult.empty with waypoints := [wpFar] },
   fun _ _ _ => [], fun _ _ _ => .empty⟩

/-- A user-point flight-plan entry with non-empty ident and region. -/
def entryUser : FlightplanEntry := ⟨.USER, "FOO", "BAR", ⟨1, 2, true⟩, "", "MYPT"⟩

/-- One-entry flight plan around `entryUser`. -/
def planUser : Flightplan := ⟨[entryUser], "", EMPTY_POS⟩

/-- A leg state with both the airport and the waypoint payloads populated
(type not Invalid). -/
def rAirportWaypoint : RouteMapObject :=
  { RouteMapObject.empty with
    type := .AIRPORT,
    airport := { MapAirport.empty with id := 1, ident := "AAAA", isValid := true },
    waypoint := { MapWaypoint.empty with id := 2, ident := "WWWW", isValid := true } }

/-- A flight-plan entry naming airport "EDDF". -/
def entryAirport : FlightplanEntry := ⟨.AIRPORT, "EDDF", "", ⟨0, 0, true⟩, "", ""⟩

/-- One-entry flight plan departing from parking "GATE 12". -/
def planGate : Flightplan := ⟨[entryAirport], "GATE 12", EMPTY_POS⟩

/-- One-entry flight plan departing from runway "04". -/
def planRunway04 : Flightplan := ⟨[entryAirport], "04", EMPTY_POS⟩

/-- A concrete airport candidate for "EDDF". -/
def airportA : MapAirport := ⟨5, "EDDF", "Frankfurt", ⟨0, 0, true⟩, 1, true⟩

/-- Query oracle that returns `airportA` for airport lookups and one parking
spot echoing the requested name and number. -/
def queryGate : MapQuery :=
  ⟨fun _ _ _ => { MapSearchResult.empty with airports := [airportA] },
   fun _ name num => [⟨77, name, num, EMPTY_POS, true⟩],
   fun _ _ _ => .empty⟩

lemma findMapObjectLoop_spec {α : Type} (d : α → ℚ) :
    ∀ (l : List α) (cur : α) (dist : ℚ),
    (findMapObjectLoop d l cur dist = (cur, dist) ∧ ∀ x ∈ l, dist ≤ d x) ∨
    (∃ l₁ l₂, l = l₁ ++ (findMapObjectLoop d l cur dist).1 :: l₂ ∧
      (findMapObjectLoop d l cur dist).2 = d (findMapObjectLoop d l cur dist).1 ∧
      d (findMapObjectLoop d l cur dist).1 < dist ∧
      (∀ x ∈ l₁, d (findMapObjectLoop d l cur dist).1 < d x) ∧
      (∀ x ∈ l₂, d (findMapObjectLoop d l cur dist).1 ≤ d x)) := by
  intro l
  induction l with
  | nil =>
    intro cur dist
    exact Or.inl ⟨rfl, by simp⟩
  | cons x xs ih =>
    intro cur dist
    by_cases h : d x < dist
    · have hstep : findMapObjectLoop d (x :: xs) cur dist =
          findMapObjectLoop d xs x (d x) := by
        simp [findMapObjectLoop, h]
      rcases ih x (d x) with ⟨heq, hall⟩ | ⟨l₁, l₂, heq, hd, hlt, h₁, h₂⟩
      · refine Or.inr ⟨[], xs, ?_, ?_, ?_, ?_, ?_⟩
        · simp [hstep, heq]
        · simp [hstep, heq]
        · simp only [hstep, heq]; exact h
        · simp
        · intro y hy
          have := hall y hy
          simpa [hstep, heq] using this
      · refine Or.inr ⟨x :: l₁, l₂, ?_, ?_, ?_, ?_, ?_⟩
        · simp only [hstep, List.cons_append]; exact congrArg (x :: ·) heq
        · simp only [hstep]; exact hd
        · rw [hstep]; exact lt_trans hlt h
        · intro y hy
          rcases List.mem_cons.mp hy with hy | hy
          · subst hy; rw [hstep]; exact hlt
          · rw [hstep]; exact h₁ y hy
        · intro y hy; rw [hstep]; exact h₂ y hy
    · have h' : dist ≤ d x := not_lt.mp h
      have hstep : findMapObjectLoop d (x :: xs) cur dist =
          findMapObjectLoop d xs cur dist := by
        simp [findMapObjectLoop, h]
      rcases ih cur dist with ⟨heq, hall⟩ | ⟨l₁, l₂, heq, hd, hlt, h₁, h₂⟩
      · refine Or.inl ⟨by rw [hstep]; exact heq, ?_⟩
        intro y hy
        rcases List.mem_cons.mp hy with hy | hy
        · subst hy; exact h'
        · exact hall y hy
      · refine Or.inr ⟨x :: l₁, l₂, ?_, ?_, ?_, ?_, ?_⟩
        · simp [hstep]; exact heq
        · simp [hstep]; exact hd
        · rw [hstep]; exact hlt
        · intro y hy
          rcases List.mem_cons.mp hy with hy | hy
          · subst hy; rw [hstep]; exact lt_of_lt_of_le hlt h'
          · rw [hstep]; exact h₁ y hy
        · intro y hy; rw [hstep]; exact h₂ y hy

/-- C1: for a non-empty candidate list (with the real distances below the
`INVALID_DISTANCE_VALUE` sentinel), `findMapObject` returns a found flag of
`true` and the element whose position minimizes the simple great-circle
distance to the expected position, ties keeping the first element
encountered (every earlier element is strictly farther); a single-element
list returns that element regardless of its distance; an empty list returns
the default-constructed object with the found flag `false`. -/
theorem C1_findMapObject_nearest {α : Type} (position : α → Pos) (dflt : α)
    (dS : Pos → Pos → ℚ) (pos : Pos) (l : List α) :
    (l = [] → findMapObject position dflt dS l pos = (dflt, false)) ∧
    (∀ a, l = [a] → findMapObject position dflt dS l pos = (a, true)) ∧
    (l ≠ [] → (∀ x ∈ l, dS pos (position x) < INVALID_DISTANCE_VALUE) →
      (findMapObject position dflt dS l pos).2 = true ∧
      ∃ l₁ l₂, l = l₁ ++ (findMapObject position dflt dS l pos).1 :: l₂ ∧
        (∀ x ∈ l, dS pos (position (findMapObject position dflt dS l pos).1) ≤
          dS pos (position x)) ∧
        (∀ x ∈ l₁, dS pos (position (findMapObject position dflt dS l pos).1) <
          dS pos (position x))) := by
  refine ⟨?_, ?_, ?_⟩
  · intro h; subst h; rfl
  · intro a h; subst h; rfl
  · intro hne hb
    obtain ⟨first, rest, rfl⟩ := List.exists_cons_of_ne_nil hne
    cases rest with
    | nil =>
      refine ⟨rfl, [], [], rfl, ?_, by simp⟩
      intro x hx
      have hx' : x = first := by simpa using hx
      subst hx'
      exact le_refl _
    | cons b bs =>
      have hlen : (first :: b :: bs).length > 1 := by
        simp [List.length]
      have hfm : findMapObject position dflt dS (first :: b :: bs) pos =
          ((findMapObjectLoop (fun o => dS pos (position o)) (first :: b :: bs)
            first INVALID_DISTANCE_VALUE).1, true) := by
        simp [findMapObject, hlen]
      rcases findMapObjectLoop_spec (fun o => dS pos (position o))
          (first :: b :: bs) first INVALID_DISTANCE_VALUE with
        ⟨_, hall⟩ | ⟨l₁, l₂, heq, _, _, h₁, h₂⟩
      · exact absurd (hall first (by simp))
          (not_le.mpr (hb first (by simp)))
      · constructor
        · rw [hfm]
        · refine ⟨l₁, l₂, ?_, ?_, ?_⟩
          · rw [hfm]; exact heq
          · intro x hx
            rw [hfm]
            rw [heq] at hx
            rcases List.mem_append.mp hx with hx | hx
            · exact le_of_lt (h₁ x hx)
            · rcases List.mem_cons.mp hx with hx | hx
              · subst hx; exact le_refl _
              · exact h₂ x hx
          · intro x hx
            rw [hfm]; exact h₁ x hx

/-- Witness for C1 at a concrete three-candidate list. -/
theorem C1_findMapObject_nearest_witness :
    (findMapObject (fun p : Pos => p) EMPTY_POS
      (fun _ q => q.lat)
      [⟨3, 0, true⟩, ⟨1, 0, true⟩, ⟨2, 0, true⟩] ⟨0, 0, true⟩).2 = true :=
  ((C1_findMapObject_nearest (fun p : Pos => p) EMPTY_POS
      (fun _ q => q.lat) ⟨0, 0, true⟩
      [⟨3, 0, true⟩, ⟨1, 0, true⟩, ⟨2, 0, true⟩]).2.2
    (by decide) (by decide)).1

lemma updateMagvar_type (r : RouteMapObject) : (updateMagvar r).type = r.type := rfl

lemma updateMagvar_valid (r : RouteMapObject) : (updateMagvar r).valid = r.valid := rfl

lemma updateDistanceAndCourse_type (geo : Geo) (plan : Flightplan) (i : Nat)
    (pred : Option RouteMapObject) (r : RouteMapObject) :
    (updateDistanceAndCourse geo plan i pred r).type = r.type := by
  cases pred <;> unfold updateDistanceAndCourse <;> dsimp only <;>
    split <;> first | rfl | (split <;> rfl)

lemma updateDistanceAndCourse_valid (geo : Geo) (plan : Flightplan) (i : Nat)
    (pred : Option RouteMapObject) (r : RouteMapObject) :
    (updateDistanceAndCourse geo plan i pred r).valid = r.valid := by
  cases pred <;> unfold updateDistanceAndCourse <;> dsimp only <;>
    split <;> first | rfl | (split <;> rfl)

lemma finishLeg_valid (geo : Geo) (plan : Flightplan) (i : Nat)
    (pred : Option RouteMapObject) (r : RouteMapObject) :
    (finishLeg geo plan i pred r).valid = r.valid := by
  unfold finishLeg
  rw [updateDistanceAndCourse_valid, updateMagvar_valid]
  split <;> rfl

lemma finishLeg_type_of_invalid (geo : Geo) (plan : Flightplan) (i : Nat)
    (pred : Option RouteMapObject) (r : RouteMapObject) (h : r.valid = false) :
    (finishLeg geo plan i pred r).type = .INVALID := by
  unfold finishLeg
  rw [updateDistanceAndCourse_type, updateMagvar_type]
  simp [h]

lemma createFromDatabaseByEntry_fst (geo : Geo) (mt : Maptypes)
    (query : MapQuery) (i : Nat) (pred : Option RouteMapObject)
    (r : RouteMapObject) (plan : Flightplan) :
    (createFromDatabaseByEntry geo mt query i pred r plan).1 =
      finishLeg geo (resolveStep geo mt query i pred r plan).2 i pred
        (resolveStep geo mt query i pred r plan).1 := rfl

lemma createFromDatabaseByEntry_snd (geo : Geo) (mt : Maptypes)
    (query : MapQuery) (i : Nat) (pred : Option RouteMapObject)
    (r : RouteMapObject) (plan : Flightplan) :
    (createFromDatabaseByEntry geo mt query i pred r plan).2 =
      (resolveStep geo mt query i pred r plan).2 := rfl

/-- C3: after `createFromAirport`, `createFromApproachLeg` or
`createFromDatabaseByEntry`, `valid = false` implies the leg's type is
`INVALID`. -/
theorem C3_invalid_implies_type_invalid (geo : Geo) (mt : Maptypes)
    (query : MapQuery) (plan : Flightplan) (i : Nat) (a : MapAirport)
    (legs : List MapApproachLeg) (pred : Option RouteMapObject)
    (r : RouteMapObject) :
    ((createFromAirport geo plan i a pred r).valid = false →
      (createFromAirport geo plan i a pred r).type = .INVALID) ∧
    ((createFromApproachLeg geo plan i legs pred r).valid = false →
      (createFromApproachLeg geo plan i legs pred r).type = .INVALID) ∧
    ((createFromDatabaseByEntry geo mt query i pred r plan).1.valid = false →
      (createFromDatabaseByEntry geo mt query i pred r plan).1.type = .INVALID) := by
  refine ⟨?_, ?_, ?_⟩
  · intro h
    rw [show (createFromAirport geo plan i a pred r).valid = true from rfl] at h
    exact absurd h (by decide)
  · intro h
    rw [show (createFromApproachLeg geo plan i legs pred r).valid = true
        from rfl] at h
    exact absurd h (by decide)
  · intro h
    rw [createFromDatabaseByEntry_fst] at h ⊢
    rw [finishLeg_valid] at h
    exact finishLeg_type_of_invalid _ _ _ _ _ h

/-- Witness for C3: an UNKNOWN entry resolved from a fresh leg stays
unsuccessful and is typed `INVALID`. -/
theorem C3_invalid_implies_type_invalid_witness :
    (createFromDatabaseByEntry geoZero mtId queryEmpty 0 none
      RouteMapObject.empty planUnknown).1.type = MapObjectType.INVALID :=
  (C3_invalid_implies_type_invalid geoZero mtId queryEmpty planUnknown 0
    MapAirport.empty [] none RouteMapObject.empty).2.2 rfl

lemma normalizeCourse_nonneg (c : ℚ) : 0 ≤ normalizeCourse c := by
  unfold normalizeCourse
  have h1 : (⌊c / 360⌋ : ℚ) ≤ c / 360 := Int.floor_le _
  linarith

lemma normalizeCourse_lt_360 (c : ℚ) : normalizeCourse c < 360 := by
  unfold normalizeCourse
  have h1 : c / 360 < ⌊c / 360⌋ + 1 := Int.lt_floor_add_one _
  linarith

/-- C4 counterexample: a procedure leg in the precomputed-value branch copies
`calculatedTrueCourse` (here 400) into both course fields with no
normalization, so the produced course is not in [0, 360). -/
theorem C4_course_range_counterexample :
    ¬ ((updateDistanceAndCourse geoZero planUnknown 0 none
        rProcedure).courseTo < 360) := by
  have h : (updateDistanceAndCourse geoZero planUnknown 0 none
      rProcedure).courseTo = 400 := rfl
  rw [h]
  norm_num

/-- C4 amended: the course fields produced by `updateDistanceAndCourse` lie
in [0, 360) for every non-procedure leg and for every procedure leg in the
single-point special case; in the remaining procedure branch both course
fields are copied verbatim from `calculatedTrueCourse`, so they lie in
[0, 360) only when that input does. -/
theorem C4_course_range_amended (geo : Geo) (plan : Flightplan) (i : Nat)
    (pred : Option RouteMapObject) (r : RouteMapObject) :
    (r.isAnyApproach = false →
      0 ≤ (updateDistanceAndCourse geo plan i pred r).courseTo ∧
      (updateDistanceAndCourse geo plan i pred r).courseTo < 360 ∧
      0 ≤ (updateDistanceAndCourse geo plan i pred r).courseRhumbTo ∧
      (updateDistanceAndCourse geo plan i pred r).courseRhumbTo < 360) ∧
    (∀ p, r.isAnyApproach = true → pred = some p → p.isRoute = true →
      r.approachLeg.line.isPoint = true →
      0 ≤ (updateDistanceAndCourse geo plan i pred r).courseTo ∧
      (updateDistanceAndCourse geo plan i pred r).courseTo < 360 ∧
      0 ≤ (updateDistanceAndCourse geo plan i pred r).courseRhumbTo ∧
      (updateDistanceAndCourse geo plan i pred r).courseRhumbTo < 360) ∧
    (r.isAnyApproach = true →
      (∀ p, pred = some p →
        p.isRoute = false ∨ r.approachLeg.line.isPoint = false) →
      (updateDistanceAndCourse geo plan i pred r).courseTo =
        r.approachLeg.calculatedTrueCourse ∧
      (updateDistanceAndCourse geo plan i pred r).courseRhumbTo =
        r.approachLeg.calculatedTrueCourse) := by
  refine ⟨?_, ?_, ?_⟩
  · intro h
    have ht : ¬ (r.type = .PROCEDURE) := by
      simpa [RouteMapObject.isAnyApproach] using h
    cases pred with
    | none =>
      simp [updateDistanceAndCourse, RouteMapObject.isAnyApproach, ht]
    | some p =>
      simp [updateDistanceAndCourse, RouteMapObject.isAnyApproach, ht]
      exact ⟨normalizeCourse_nonneg _, normalizeCourse_lt_360 _,
        normalizeCourse_nonneg _, normalizeCourse_lt_360 _⟩
  · intro p h hp hroute hpoint
    subst hp
    have ht : r.type = .PROCEDURE := by
      simpa [RouteMapObject.isAnyApproach] using h
    simp [updateDistanceAndCourse, RouteMapObject.isAnyApproach, ht, hroute,
      hpoint]
    exact ⟨normalizeCourse_nonneg _, normalizeCourse_lt_360 _,
      normalizeCourse_nonneg _, normalizeCourse_lt_360 _⟩
  · intro h hcase
    have ht : r.type = .PROCEDURE := by
      simpa [RouteMapObject.isAnyApproach] using h
    cases pred with
    | none =>
      simp [updateDistanceAndCourse, RouteMapObject.isAnyApproach, ht]
    | some p =>
      have hb : (p.isRoute && r.approachLeg.line.isPoint) = false := by
        rcases hcase p rfl with hf | hf <;> simp [hf]
      simp [updateDistanceAndCourse, RouteMapObject.isAnyApproach, ht, hb]

/-- Witness for C4 at a concrete non-procedure first leg. -/
theorem C4_course_range_amended_witness :
    0 ≤ (updateDistanceAndCourse geoZero planUnknown 0 none
      RouteMapObject.empty).courseTo :=
  ((C4_course_range_amended geoZero planUnknown 0 none
    RouteMapObject.empty).1 rfl).1

/-- C7: a procedure leg outside the single-point special case takes the
procedure definition's precomputed true course and distance for both the
true and the rhumb fields and adopts the procedure geometry. -/
theorem C7_procedure_copies_precomputed (geo : Geo) (plan : Flightplan)
    (i : Nat) (pred : Option RouteMapObject) (r : RouteMapObject)
    (happ : r.isAnyApproach = true)
    (hcase : ∀ p, pred = some p →
      p.isRoute = false ∨ r.approachLeg.line.isPoint = false) :
    (updateDistanceAndCourse geo plan i pred r).courseTo =
      r.approachLeg.calculatedTrueCourse ∧
    (updateDistanceAndCourse geo plan i pred r).courseRhumbTo =
      r.approachLeg.calculatedTrueCourse ∧
    (updateDistanceAndCourse geo plan i pred r).distanceTo =
      r.approachLeg.calculatedDistance ∧
    (updateDistanceAndCourse geo plan i pred r).distanceToRhumb =
      r.approachLeg.calculatedDistance ∧
    (updateDistanceAndCourse geo plan i pred r).geometry =
      r.approachLeg.geometry := by
  have ht : r.type = .PROCEDURE := by
    simpa [RouteMapObject.isAnyApproach] using happ
  cases pred with
  | none =>
    simp [updateDistanceAndCourse, RouteMapObject.isAnyApproach, ht]
  | some p =>
    have hb : (p.isRoute && r.approachLeg.line.isPoint) = false := by
      rcases hcase p rfl with hf | hf <;> simp [hf]
    simp [updateDistanceAndCourse, RouteMapObject.isAnyApproach, ht, hb]

/-- Witness for C7 at a concrete procedure leg with no predecessor. -/
theorem C7_procedure_copies_precomputed_witness :
    (updateDistanceAndCourse geoZero planUnknown 0 none rProcedure).courseTo =
      rProcedure.approachLeg.calculatedTrueCourse :=
  (C7_procedure_copies_precomputed geoZero planUnknown 0 none rProcedure rfl
    (fun p hp => by cases hp)).1

lemma scanDown_eq (l : List RouteMapObject) :
    ∀ s, scanDown l s =
      (((List.range (s + 1)).reverse.map
          fun i => (l.getD i RouteMapObject.empty).magvar).find?
        fun q => decide (q ≠ 0)).getD 0 := by
  intro s
  induction s with
  | zero =>
    have h0 : ((List.range (0 + 1)).reverse.map
        fun i => (l.getD i RouteMapObject.empty).magvar) =
        [(l.getD 0 RouteMapObject.empty).magvar] := rfl
    have hu : scanDown l 0 =
        if (l.getD 0 RouteMapObject.empty).magvar ≠ 0 then
          (l.getD 0 RouteMapObject.empty).magvar
        else 0 := rfl
    rw [h0]
    by_cases h : (l.getD 0 RouteMapObject.empty).magvar = 0
    · rw [hu, if_neg (fun hc => hc h),
        List.find?_cons_of_neg _ (by simpa using h)]
      rfl
    · rw [hu, if_pos h, List.find?_cons_of_pos _ (by simpa using h)]
      rfl
  | succ n ih =>
    have h1 : List.range (n + 1 + 1) = List.range (n + 1) ++ [n + 1] := by
      simpa using List.range_succ (n + 1)
    have hr : ((List.range (n + 1 + 1)).reverse.map
        fun i => (l.getD i RouteMapObject.empty).magvar) =
        (l.getD (n + 1) RouteMapObject.empty).magvar ::
          ((List.range (n + 1)).reverse.map
            fun i => (l.getD i RouteMapObject.empty).magvar) := by
      rw [h1]
      simp
    have hu : scanDown l (n + 1) =
        if (l.getD (n + 1) RouteMapObject.empty).magvar ≠ 0 then
          (l.getD (n + 1) RouteMapObject.empty).magvar
        else scanDown l n := rfl
    rw [hr]
    by_cases h : (l.getD (n + 1) RouteMapObject.empty).magvar = 0
    · rw [hu, if_neg (fun hc => hc h),
        List.find?_cons_of_neg _ (by simpa using h), ih]
    · rw [hu, if_pos h, List.find?_cons_of_pos _ (by simpa using h)]
      rfl

lemma scanUp_eq_aux (l : List RouteMapObject) :
    ∀ k i, l.length - i = k →
      scanUp l i =
        (((l.drop i).map fun x => x.magvar).find?
          fun q => decide (q ≠ 0)).getD 0 := by
  intro k
  induction k with
  | zero =>
    intro i hk
    have hle : l.length ≤ i := by omega
    rw [scanUp, if_neg (by omega), List.drop_eq_nil_of_le hle]
    simp
  | succ n ih =>
    intro i hk
    have hlt : i < l.length := by omega
    have hget : l.getD i RouteMapObject.empty = l[i] :=
      List.getD_eq_getElem l RouteMapObject.empty hlt
    rw [scanUp, if_pos hlt, List.drop_eq_getElem_cons hlt, List.map_cons,
      hget]
    by_cases h : (l[i]).magvar = 0
    · rw [if_neg (fun hc => hc h), List.find?_cons_of_neg _ (by simpa using h)]
      exact ih (i + 1) (by omega)
    · rw [if_pos h, List.find?_cons_of_pos _ (by simpa using h)]
      simp

lemma scanUp_eq (l : List RouteMapObject) (i : Nat) :
    scanUp l i =
      (((l.drop i).map fun x => x.magvar).find?
        fun q => decide (q ≠ 0)).getD 0 :=
  scanUp_eq_aux l (l.length - i) i rfl

lemma combineMagvar_eq (x y : Option ℚ) (hx : ∀ a, x = some a → a ≠ 0)
    (hy : ∀ b, y = some b → b ≠ 0) :
    (if x.getD 0 ≠ 0 ∧ y.getD 0 ≠ 0 then (x.getD 0 + y.getD 0) / 2
     else if x.getD 0 ≠ 0 then x.getD 0
     else if y.getD 0 ≠ 0 then y.getD 0
     else 0) = combineMagvar x y := by
  cases x with
  | none =>
    cases y with
    | none => simp [combineMagvar]
    | some b => simp [combineMagvar, hy b rfl]
  | some a =>
    cases y with
    | none => simp [combineMagvar, hx a rfl]
    | some b => simp [combineMagvar, hx a rfl, hy b rfl]

/-- C5: for a leg of kind User or Invalid (in a non-empty route), the
backfilled magnetic variation is the backward/forward nearest-non-zero
combination (mean when both scans hit, the single value when one does, zero
otherwise); for any other kind the leg is left unchanged. -/
theorem C5_backfill_magvar (entryIndex : Nat) (routeList : List RouteMapObject)
    (r : RouteMapObject) (hne : routeList ≠ []) :
    (¬ (r.type = .USER ∨ r.type = .INVALID) →
      updateInvalidMagvar entryIndex routeList r = r) ∧
    ((r.type = .USER ∨ r.type = .INVALID) →
      (updateInvalidMagvar entryIndex routeList r).magvar =
        backfillSpec entryIndex routeList) := by
  constructor
  · intro h
    unfold updateInvalidMagvar
    rw [if_neg h]
  · intro h
    unfold updateInvalidMagvar backfillSpec
    rw [if_pos h]
    simp only [scanDown_eq, scanUp_eq]
    refine combineMagvar_eq _ _ ?_ ?_
    · intro a ha
      simpa using List.find?_some ha
    · intro b hb
      simpa using List.find?_some hb

/-- Witness for C5: in the route `[A(var=5), B(var=0,user), C(var=9)]`, leg
B backfills to `(5+9)/2 = 7`. -/
theorem C5_backfill_magvar_witness :
    (updateInvalidMagvar 1 routeABC legB).magvar = 7 := by
  rw [(C5_backfill_magvar 1 routeABC legB (by simp [routeABC])).2
    (Or.inl rfl)]
  norm_num [backfillSpec, routeABC, legA, legB, legC, RouteMapObject.empty,
    List.range_succ, List.find?, combineMagvar]

lemma finishLeg_type_of_valid (geo : Geo) (plan : Flightplan) (i : Nat)
    (pred : Option RouteMapObject) (r : RouteMapObject) (h : r.valid = true) :
    (finishLeg geo plan i pred r).type = r.type := by
  unfold finishLeg
  rw [updateDistanceAndCourse_type, updateMagvar_type]
  simp [h]

lemma finish_of_step_invalid (geo : Geo) (mt : Maptypes) (query : MapQuery)
    (i : Nat) (pred : Option RouteMapObject) (r0 : RouteMapObject)
    (plan0 : Flightplan)
    (h1 : (resolveStep geo mt query i pred r0 plan0).1.valid = false)
    (h2 : (resolveStep geo mt query i pred r0 plan0).2 = plan0) :
    (createFromDatabaseByEntry geo mt query i pred r0 plan0).1.valid = false ∧
    (createFromDatabaseByEntry geo mt query i pred r0 plan0).1.type = .INVALID ∧
    (createFromDatabaseByEntry geo mt query i pred r0 plan0).2 = plan0 := by
  refine ⟨?_, ?_, ?_⟩
  · rw [createFromDatabaseByEntry_fst, finishLeg_valid]
    exact h1
  · rw [createFromDatabaseByEntry_fst]
    exact finishLeg_type_of_invalid _ _ _ _ _ h1
  · rw [createFromDatabaseByEntry_snd]
    exact h2

lemma resolveStep_wp_far (geo : Geo) (mt : Maptypes) (query : MapQuery)
    (i : Nat) (pred : Option RouteMapObject) (r0 : RouteMapObject)
    (plan0 : Flightplan)
    (hwt : (entryAt plan0 i).waypointType = .INTERSECTION)
    (hfound : (wpCandidate geo query plan0 i).2 = true)
    (hfar : ¬ (geo.distanceMeterTo (wpCandidate geo query plan0 i).1.position
      (entryAt plan0 i).position < MAX_WAYPOINT_DISTANCE_METER)) :
    (resolveStep geo mt query i pred r0 plan0).1.valid = false ∧
    (resolveStep geo mt query i pred r0 plan0).2 = plan0 := by
  simp only [resolveStep]
  rw [hwt]
  simp [hfound, decide_eq_false hfar]

lemma resolveStep_vor_far (geo : Geo) (mt : Maptypes) (query : MapQuery)
    (i : Nat) (pred : Option RouteMapObject) (r0 : RouteMapObject)
    (plan0 : Flightplan)
    (hwt : (entryAt plan0 i).waypointType = .VOR)
    (hfound : (vorCandidate geo query plan0 i).2 = true)
    (hfar : ¬ (geo.distanceMeterTo (vorCandidate geo query plan0 i).1.position
      (entryAt plan0 i).position < MAX_WAYPOINT_DISTANCE_METER)) :
    (resolveStep geo mt query i pred r0 plan0).1.valid = false ∧
    (resolveStep geo mt query i pred r0 plan0).2 = plan0 := by
  simp only [resolveStep]
  rw [hwt]
  simp [hfound, decide_eq_false hfar]

lemma resolveStep_ndb_far (geo : Geo) (mt : Maptypes) (query : MapQuery)
    (i : Nat) (pred : Option RouteMapObject) (r0 : RouteMapObject)
    (plan0 : Flightplan)
    (hwt : (entryAt plan0 i).waypointType = .NDB)
    (hfound : (ndbCandidate geo query plan0 i).2 = true)
    (hfar : ¬ (geo.distanceMeterTo (ndbCandidate geo query plan0 i).1.position
      (entryAt plan0 i).position < MAX_WAYPOINT_DISTANCE_METER)) :
    (resolveStep geo mt query i pred r0 plan0).1.valid = false ∧
    (resolveStep geo mt query i pred r0 plan0).2 = plan0 := by
  simp only [resolveStep]
  rw [hwt]
  simp [hfound, decide_eq_false hfar]

lemma resolveStep_wp_notfound (geo : Geo) (mt : Maptypes) (query : MapQuery)
    (i : Nat) (pred : Option RouteMapObject) (r0 : RouteMapObject)
    (plan0 : Flightplan)
    (hwt : (entryAt plan0 i).waypointType = .INTERSECTION)
    (hnf : (wpCandidate geo query plan0 i).2 = false) :
    resolveStep geo mt query i pred r0 plan0 =
      ({ r0 with index := i }, plan0) := by
  simp only [resolveStep]
  rw [hwt]
  simp [hnf]

lemma resolveStep_vor_notfound (geo : Geo) (mt : Maptypes) (query : MapQuery)
    (i : Nat) (pred : Option RouteMapObject) (r0 : RouteMapObject)
    (plan0 : Flightplan)
    (hwt : (entryAt plan0 i).waypointType = .VOR)
    (hnf : (vorCandidate geo query plan0 i).2 = false) :
    resolveStep geo mt query i pred r0 plan0 =
      ({ r0 with index := i }, plan0) := by
  simp only [resolveStep]
  rw [hwt]
  simp [hnf]

lemma resolveStep_ndb_notfound (geo : Geo) (mt : Maptypes) (query : MapQuery)
    (i : Nat) (pred : Option RouteMapObject) (r0 : RouteMapObject)
    (plan0 : Flightplan)
    (hwt : (entryAt plan0 i).waypointType = .NDB)
    (hnf : (ndbCandidate geo query plan0 i).2 = false) :
    resolveStep geo mt query i pred r0 plan0 =
      ({ r0 with index := i }, plan0) := by
  simp only [resolveStep]
  rw [hwt]
  simp [hnf]

lemma wpCandidate_not_found (geo : Geo) (query : MapQuery) (plan0 : Flightplan)
    (i : Nat)
    (hnil : (query.getMapObjectByIdent .WAYPOINT (entryAt plan0 i).icaoIdent
      (regionAt plan0 i)).waypoints = []) :
    (wpCandidate geo query plan0 i).2 = false := by
  unfold wpCandidate
  rw [hnil]
  rfl

lemma vorCandidate_not_found (geo : Geo) (query : MapQuery) (plan0 : Flightplan)
    (i : Nat)
    (hnil : (query.getMapObjectByIdent .VOR (entryAt plan0 i).icaoIdent
      (regionAt plan0 i)).vors = []) :
    (vorCandidate geo query plan0 i).2 = false := by
  unfold vorCandidate
  rw [hnil]
  rfl

lemma ndbCandidate_not_found (geo : Geo) (query : MapQuery) (plan0 : Flightplan)
    (i : Nat)
    (hnil : (query.getMapObjectByIdent .NDB (entryAt plan0 i).icaoIdent
      (regionAt plan0 i)).ndbs = []) :
    (ndbCandidate geo query plan0 i).2 = false := by
  unfold ndbCandidate
  rw [hnil]
  rfl

/-- C2 counterexample: resolving waypoint "WPT" whose only candidate lies
20000 m away (beyond the 10000 m tolerance) leaves the leg invalid with type
`INVALID` — the type is not kept at the requested kind `WAYPOINT`. -/
theorem C2_tolerance_counterexample :
    (createFromDatabaseByEntry geoFar mtId queryWpt 0 none
      RouteMapObject.empty planWpt).1.valid = false ∧
    (createFromDatabaseByEntry geoFar mtId queryWpt 0 none
      RouteMapObject.empty planWpt).1.type ≠ MapObjectType.WAYPOINT ∧
    (createFromDatabaseByEntry geoFar mtId queryWpt 0 none
      RouteMapObject.empty planWpt).1.type = MapObjectType.INVALID := by
  refine ⟨rfl, ?_, rfl⟩
  intro h
  exact absurd (rfl.symm.trans h) (by decide)

/-- C2 amended: when the chosen nearest waypoint/VOR/NDB candidate lies at
or beyond the 10000 m tolerance from the entry position, the leg ends with
`valid = false` and its type set to `INVALID` (not kept at the requested
kind), and nothing is written back to the flight plan. -/
theorem C2_tolerance_amended (geo : Geo) (mt : Maptypes) (query : MapQuery)
    (i : Nat) (pred : Option RouteMapObject) (r0 : RouteMapObject)
    (plan0 : Flightplan) :
    ((entryAt plan0 i).waypointType = .INTERSECTION →
      (wpCandidate geo query plan0 i).2 = true →
      ¬ (geo.distanceMeterTo (wpCandidate geo query plan0 i).1.position
        (entryAt plan0 i).position < MAX_WAYPOINT_DISTANCE_METER) →
      (createFromDatabaseByEntry geo mt query i pred r0 plan0).1.valid = false ∧
      (createFromDatabaseByEntry geo mt query i pred r0 plan0).1.type = .INVALID ∧
      (createFromDatabaseByEntry geo mt query i pred r0 plan0).2 = plan0) ∧
    ((entryAt plan0 i).waypointType = .VOR →
      (vorCandidate geo query plan0 i).2 = true →
      ¬ (geo.distanceMeterTo (vorCandidate geo query plan0 i).1.position
        (entryAt plan0 i).position < MAX_WAYPOINT_DISTANCE_METER) →
      (createFromDatabaseByEntry geo mt query i pred r0 plan0).1.valid = false ∧
      (createFromDatabaseByEntry geo mt query i pred r0 plan0).1.type = .INVALID ∧
      (createFromDatabaseByEntry geo mt query i pred r0 plan0).2 = plan0) ∧
    ((entryAt plan0 i).waypointType = .NDB →
      (ndbCandidate geo query plan0 i).2 = true →
      ¬ (geo.distanceMeterTo (ndbCandidate geo query plan0 i).1.position
        (entryAt plan0 i).position < MAX_WAYPOINT_DISTANCE_METER) →
      (createFromDatabaseByEntry geo mt query i pred r0 plan0).1.valid = false ∧
      (createFromDatabaseByEntry geo mt query i pred r0 plan0).1.type = .INVALID ∧
      (createFromDatabaseByEntry geo mt query i pred r0 plan0).2 = plan0) := by
  refine ⟨?_, ?_, ?_⟩
  · intro hwt hfound hfar
    have h := resolveStep_wp_far geo mt query i pred r0 plan0 hwt hfound hfar
    exact finish_of_step_invalid geo mt query i pred r0 plan0 h.1 h.2
  · intro hwt hfound hfar
    have h := resolveStep_vor_far geo mt query i pred r0 plan0 hwt hfound hfar
    exact finish_of_step_invalid geo mt query i pred r0 plan0 h.1 h.2
  · intro hwt hfound hfar
    have h := resolveStep_ndb_far geo mt query i pred r0 plan0 hwt hfound hfar
    exact finish_of_step_invalid geo mt query i pred r0 plan0 h.1 h.2

/-- Witness for C2 at the concrete over-tolerance waypoint resolution. -/
theorem C2_tolerance_amended_witness :
    (createFromDatabaseByEntry geoFar mtId queryWpt 0 none RouteMapObject.empty
      planWpt).2 = planWpt :=
  ((C2_tolerance_amended geoFar mtId queryWpt 0 none RouteMapObject.empty
    planWpt).1 rfl rfl (by decide)).2.2

/-- C6: when resolution of a waypoint/VOR/NDB entry fails — no candidates,
or the best match at or beyond the tolerance — the (freshly constructed) leg
ends with type `INVALID` and `valid = false`, and the flight plan is left
unmodified. -/
theorem C6_unresolvable_entry (geo : Geo) (mt : Maptypes) (query : MapQuery)
    (i : Nat) (pred : Option RouteMapObject) (r0 : RouteMapObject)
    (plan0 : Flightplan) (hr0 : r0.valid = false) :
    ((entryAt plan0 i).waypointType = .INTERSECTION →
      ((query.getMapObjectByIdent .WAYPOINT (entryAt plan0 i).icaoIdent
          (regionAt plan0 i)).waypoints = [] ∨
        ((wpCandidate geo query plan0 i).2 = true ∧
          ¬ (geo.distanceMeterTo (wpCandidate geo query plan0 i).1.position
            (entryAt plan0 i).position < MAX_WAYPOINT_DISTANCE_METER))) →
      (createFromDatabaseByEntry geo mt query i pred r0 plan0).1.valid = false ∧
      (createFromDatabaseByEntry geo mt query i pred r0 plan0).1.type = .INVALID ∧
      (createFromDatabaseByEntry geo mt query i pred r0 plan0).2 = plan0) ∧
    ((entryAt plan0 i).waypointType = .VOR →
      ((query.getMapObjectByIdent .VOR (entryAt plan0 i).icaoIdent
          (regionAt plan0 i)).vors = [] ∨
        ((vorCandidate geo query plan0 i).2 = true ∧
          ¬ (geo.distanceMeterTo (vorCandidate geo query plan0 i).1.position
            (entryAt plan0 i).position < MAX_WAYPOINT_DISTANCE_METER))) →
      (createFromDatabaseByEntry geo mt query i pred r0 plan0).1.valid = false ∧
      (createFromDatabaseByEntry geo mt query i pred r0 plan0).1.type = .INVALID ∧
      (createFromDatabaseByEntry geo mt query i pred r0 plan0).2 = plan0) ∧
    ((entryAt plan0 i).waypointType = .NDB →
      ((query.getMapObjectByIdent .NDB (entryAt plan0 i).icaoIdent
          (regionAt plan0 i)).ndbs = [] ∨
        ((ndbCandidate geo query plan0 i).2 = true ∧
          ¬ (geo.distanceMeterTo (ndbCandidate geo query plan0 i).1.position
            (entryAt plan0 i).position < MAX_WAYPOINT_DISTANCE_METER))) →
      (createFromDatabaseByEntry geo mt query i pred r0 plan0).1.valid = false ∧
      (createFromDatabaseByEntry geo mt query i pred r0 plan0).1.type = .INVALID ∧
      (createFromDatabaseByEntry geo mt query i pred r0 plan0).2 = plan0) := by
  refine ⟨?_, ?_, ?_⟩
  · intro hwt hfail
    rcases hfail with hnil | ⟨hfound, hfar⟩
    · have hnf := wpCandidate_not_found geo query plan0 i hnil
      have hstep := resolveStep_wp_notfound geo mt query i pred r0 plan0 hwt hnf
      exact finish_of_step_invalid geo mt query i pred r0 plan0
        (by rw [hstep]; exact hr0) (by rw [hstep])
    · have h := resolveStep_wp_far geo mt query i pred r0 plan0 hwt hfound hfar
      exact finish_of_step_invalid geo mt query i pred r0 plan0 h.1 h.2
  · intro hwt hfail
    rcases hfail with hnil | ⟨hfound, hfar⟩
    · have hnf := vorCandidate_not_found geo query plan0 i hnil
      have hstep := resolveStep_vor_notfound geo mt query i pred r0 plan0 hwt hnf
      exact finish_of_step_invalid geo mt query i pred r0 plan0
        (by rw [hstep]; exact hr0) (by rw [hstep])
    · have h := resolveStep_vor_far geo mt query i pred r0 plan0 hwt hfound hfar
      exact finish_of_step_invalid geo mt query i pred r0 plan0 h.1 h.2
  · intro hwt hfail
    rcases hfail with hnil | ⟨hfound, hfar⟩
    · have hnf := ndbCandidate_not_found geo query plan0 i hnil
      have hstep := resolveStep_ndb_notfound geo mt query i pred r0 plan0 hwt hnf
      exact finish_of_step_invalid geo mt query i pred r0 plan0
        (by rw [hstep]; exact hr0) (by rw [hstep])
    · have h := resolveStep_ndb_far geo mt query i pred r0 plan0 hwt hfound hfar
      exact finish_of_step_invalid geo mt query i pred r0 plan0 h.1 h.2

/-- Witness for C6: waypoint lookup of "WPT" against the empty database. -/
theorem C6_unresolvable_entry_witness :
    (createFromDatabaseByEntry geoZero mtId queryEmpty 0 none
      RouteMapObject.empty planWpt).1.type = MapObjectType.INVALID :=
  ((C6_unresolvable_entry geoZero mtId queryEmpty 0 none RouteMapObject.empty
    planWpt rfl).1 rfl (Or.inl rfl)).2.1

lemma resolveStep_user (geo : Geo) (mt : Maptypes) (query : MapQuery)
    (i : Nat) (pred : Option RouteMapObject) (r0 : RouteMapObject)
    (plan0 : Flightplan) (hwt : (entryAt plan0 i).waypointType = .USER) :
    resolveStep geo mt query i pred r0 plan0 =
      ({ r0 with index := i, valid := true, type := .USER },
       { plan0 with entries := plan0.entries.set i ({ entryAt plan0 i with icaoIdent := "", icaoRegion := "" }) }) := by
  simp only [resolveStep]
  rw [hwt]

/-- C10: resolving a USER entry always succeeds with type `USER`, blanks the
entry's ICAO identifier and region in the owning flight plan, leaves its
other fields and the rest of the plan unchanged, and consults no database
query (the result is the same for every query oracle). -/
theorem C10_user_entry (geo : Geo) (mt : Maptypes) (query : MapQuery)
    (i : Nat) (pred : Option RouteMapObject) (r0 : RouteMapObject)
    (plan0 : Flightplan) (hwt : (entryAt plan0 i).waypointType = .USER) :
    (createFromDatabaseByEntry geo mt query i pred r0 plan0).1.valid = true ∧
    (createFromDatabaseByEntry geo mt query i pred r0 plan0).1.type = .USER ∧
    (createFromDatabaseByEntry geo mt query i pred r0 plan0).2.entries =
      plan0.entries.set i
        { entryAt plan0 i with icaoIdent := "", icaoRegion := "" } ∧
    (createFromDatabaseByEntry geo mt query i pred r0 plan0).2.departureParkingName =
      plan0.departureParkingName ∧
    (createFromDatabaseByEntry geo mt query i pred r0 plan0).2.departurePosition =
      plan0.departurePosition ∧
    (∀ q2 : MapQuery, createFromDatabaseByEntry geo mt q2 i pred r0 plan0 =
      createFromDatabaseByEntry geo mt query i pred r0 plan0) := by
  have hstep := resolveStep_user geo mt query i pred r0 plan0 hwt
  refine ⟨?_, ?_, ?_, ?_, ?_, ?_⟩
  · rw [createFromDatabaseByEntry_fst, finishLeg_valid, hstep]
  · rw [createFromDatabaseByEntry_fst]
    rw [finishLeg_type_of_valid _ _ _ _ _ (by rw [hstep])]
    rw [hstep]
  · rw [createFromDatabaseByEntry_snd, hstep]
  · rw [createFromDatabaseByEntry_snd, hstep]
  · rw [createFromDatabaseByEntry_snd, hstep]
  · intro q2
    have hstep2 := resolveStep_user geo mt q2 i pred r0 plan0 hwt
    unfold createFromDatabaseByEntry
    rw [hstep, hstep2]

/-- Witness for C10 at a concrete USER entry with non-empty ident/region. -/
theorem C10_user_entry_witness :
    (createFromDatabaseByEntry geoZero mtId queryEmpty 0 none
      RouteMapObject.empty planUser).1.valid = true :=
  (C10_user_entry geoZero mtId queryEmpty 0 none RouteMapObject.empty planUser
    rfl).1

/-- C9 counterexample: with both the airport (id 1) and the waypoint (id 2)
payloads populated, `getId` returns the waypoint's id, not the airport's —
so `getId` does not follow the Airport→VOR→NDB→Waypoint→ILS→RunwayEnd
order (`getIdent` does: it returns the airport's identifier here). -/
theorem C9_accessor_priority_counterexample :
    getId rAirportWaypoint = 2 ∧
    rAirportWaypoint.airport.id = 1 ∧
    getIdent planUnknown rAirportWaypoint = "AAAA" := by
  refine ⟨rfl, rfl, rfl⟩

/-- C9 amended: `getIdent` resolves in the order
Airport→VOR→NDB→Waypoint→ILS→RunwayEnd, but `getId` returns -1 for Invalid
legs and otherwise resolves Waypoint→VOR→NDB→Airport→ILS (the runway end is
not consulted), so the two accessors do not share one priority order. -/
theorem C9_accessor_priority_amended (plan : Flightplan) (r : RouteMapObject) :
    (r.airport.isValid = true → getIdent plan r = r.airport.ident) ∧
    (r.airport.isValid = false → r.vor.isValid = true →
      getIdent plan r = r.vor.ident) ∧
    (r.airport.isValid = false → r.vor.isValid = false →
      r.ndb.isValid = true → getIdent plan r = r.ndb.ident) ∧
    (r.airport.isValid = false → r.vor.isValid = false →
      r.ndb.isValid = false → r.waypoint.isValid = true →
      getIdent plan r = r.waypoint.ident) ∧
    (r.airport.isValid = false → r.vor.isValid = false →
      r.ndb.isValid = false → r.waypoint.isValid = false →
      r.ils.isValid = true → getIdent plan r = r.ils.ident) ∧
    (r.airport.isValid = false → r.vor.isValid = false →
      r.ndb.isValid = false → r.waypoint.isValid = false →
      r.ils.isValid = false → r.runwayEnd.isValid = true →
      getIdent plan r = "RW" ++ r.runwayEnd.name) ∧
    (r.type = .INVALID → getId r = -1) ∧
    (r.type ≠ .INVALID → r.waypoint.isValid = true →
      getId r = r.waypoint.id) ∧
    (r.type ≠ .INVALID → r.waypoint.isValid = false →
      r.vor.isValid = true → getId r = r.vor.id) ∧
    (r.type ≠ .INVALID → r.waypoint.isValid = false →
      r.vor.isValid = false → r.ndb.isValid = true → getId r = r.ndb.id) ∧
    (r.type ≠ .INVALID → r.waypoint.isValid = false →
      r.vor.isValid = false → r.ndb.isValid = false →
      r.airport.isValid = true → getId r = r.airport.id) ∧
    (r.type ≠ .INVALID → r.waypoint.isValid = false →
      r.vor.isValid = false → r.ndb.isValid = false →
      r.airport.isValid = false → r.ils.isValid = true →
      getId r = r.ils.id) := by
  refine ⟨?_, ?_, ?_, ?_, ?_, ?_, ?_, ?_, ?_, ?_, ?_, ?_⟩ <;>
    intros <;> simp [getIdent, getId, *]

/-- Witness for C9: with both airport and waypoint populated, `getId` takes
the waypoint branch. -/
theorem C9_accessor_priority_amended_witness :
    getId rAirportWaypoint = rAirportWaypoint.waypoint.id :=
  ((((((((C9_accessor_priority_amended planUnknown
    rAirportWaypoint).2).2).2).2).2).2).2).1 (by decide) rfl

lemma resolveStep_planGate (geo : Geo) (mt : Maptypes) (query : MapQuery)
    (r0 : RouteMapObject) :
    resolveStep geo mt query 0 none r0 planGate =
      (match (query.getMapObjectByIdent .AIRPORT "EDDF" "").airports with
       | [] => ({ r0 with index := 0 }, planGate)
       | a :: _ =>
         match query.getParkingByNameAndNumber a.id
             (mt.parkingDatabaseName "GATE") 12 with
         | [] =>
           ({ r0 with index := 0, type := .AIRPORT, airport := a, valid := true },
            { planGate with departureParkingName := "" })
         | p :: _ =>
           ({ r0 with index := 0, type := .AIRPORT, airport := a, valid := true, parking := p },
            { planGate with departureParkingName := mt.parkingNameForFlightplan p })) := rfl

lemma resolveStep_planRunway04 (geo : Geo) (mt : Maptypes) (query : MapQuery)
    (r0 : RouteMapObject) :
    resolveStep geo mt query 0 none r0 planRunway04 =
      (match (query.getMapObjectByIdent .AIRPORT "EDDF" "").airports with
       | [] => ({ r0 with index := 0 }, planRunway04)
       | a :: _ =>
         let st := query.getStartByNameAndPos a.id "04"
           planRunway04.departurePosition
         let r := { r0 with index := 0, type := .AIRPORT, airport := a, valid := true, start := st }
         if !st.isValid then
           (r, { planRunway04 with departureParkingName := "" })
         else if st.helipadNumber > 0 then
           (r, { planRunway04 with departureParkingName := toString st.helipadNumber })
         else
           (r, { planRunway04 with departureParkingName := st.runwayName })) := rfl

/-- C8 counterexample: parsing the departure-parking name "GATE 12" as the
code does — `captured(1)` is "GATE " and the trim happens before the
space-to-underscore replacement — yields the letter prefix "GATE", not
"GATE_"; the number is 12. -/
theorem C8_parking_prefix_counterexample :
    replaceSpaceWithUnderscore (qtToUpper (qtTrim
      (PARKING_TO_NAME_AND_NUM_match (qtTrim planGate.departureParkingName)).1)) =
      "GATE" ∧
    qtToInt
      (PARKING_TO_NAME_AND_NUM_match (qtTrim planGate.departureParkingName)).2 =
      12 ∧
    ("GATE" : String) ≠ "GATE_" := by
  refine ⟨rfl, rfl, by decide⟩

/-- C8 amended: during first-leg airport resolution, the parking name
"GATE 12" parses to letter prefix "GATE" (trim happens before the
space-to-underscore replacement, so no trailing underscore) and number 12
and routes to the parking lookup by name and number; the pure number "04"
yields an empty letter prefix and routes to the runway/helipad start-position
lookup, leaving the parking field untouched. -/
theorem C8_parking_parse_amended (geo : Geo) (mt : Maptypes)
    (query : MapQuery) (a : MapAirport) (rest : List MapAirport)
    (r0 : RouteMapObject)
    (hq : (query.getMapObjectByIdent .AIRPORT "EDDF" "").airports = a :: rest) :
    (query.getParkingByNameAndNumber a.id (mt.parkingDatabaseName "GATE") 12 =
        [] →
      resolveStep geo mt query 0 none r0 planGate =
        ({ r0 with index := 0, type := .AIRPORT, airport := a, valid := true },
         { planGate with departureParkingName := "" })) ∧
    (∀ p ps, query.getParkingByNameAndNumber a.id
        (mt.parkingDatabaseName "GATE") 12 = p :: ps →
      resolveStep geo mt query 0 none r0 planGate =
        ({ r0 with index := 0, type := .AIRPORT, airport := a, valid := true, parking := p },
         { planGate with departureParkingName := mt.parkingNameForFlightplan p })) ∧
    ((resolveStep geo mt query 0 none r0 planRunway04).1.start =
        query.getStartByNameAndPos a.id "04" planRunway04.departurePosition ∧
      (resolveStep geo mt query 0 none r0 planRunway04).1.parking =
        r0.parking) := by
  refine ⟨?_, ?_, ?_, ?_⟩
  · intro hnil
    rw [resolveStep_planGate, hq]
    dsimp only
    rw [hnil]
  · intro p ps hp
    rw [resolveStep_planGate, hq]
    dsimp only
    rw [hp]
  · rw [resolveStep_planRunway04, hq]
    dsimp only
    split <;> first | rfl | (split <;> rfl)
  · rw [resolveStep_planRunway04, hq]
    dsimp only
    split <;> first | rfl | (split <;> rfl)

/-- Witness for C8: a query oracle echoing the parking-lookup arguments
shows the lookup used name prefix "GATE" and number 12. -/
theorem C8_parking_parse_amended_witness :
    (resolveStep geoZero mtId queryGate 0 none RouteMapObject.empty
      planGate).1.parking = (⟨77, "GATE", 12, EMPTY_POS, true⟩ : MapParking) := by
  rw [(C8_parking_parse_amended geoZero mtId queryGate airportA []
    RouteMapObject.empty rfl).2.1 ⟨77, "GATE", 12, EMPTY_POS, true⟩ [] rfl]

end LNM
